import Mathlib

/-!
Shallow embedding of `triggerpi.py`, the audio-trigger debouncer for the
Emotiva XMC-1. The program is a four-state machine (`off`, `turning_on`,
`armed`, `on`) polled with a fresh input sample each tick. Each Python state
class runs entry side effects in its constructor (indicator lights, relays)
and exposes an `input` method that may write outputs and return the name of
the next state (or the empty string for "no transition"). We model the
hardware outputs (`automationhat` lights and relays) explicitly as a record
threaded through every call, time as rational seconds, and the state object
as its kind together with its `started` timestamp.
-/

namespace Triggerpi

/-- One sample of the three trigger-voltage inputs, as read by `getInput`:
a tuple of 0/1 values, here booleans. -/
structure Sample where
  one : Bool
  two : Bool
  three : Bool
deriving DecidableEq, Repr

/-- `1 in input` in the Python source: some channel of the sample is high. -/
def anyHigh (s : Sample) : Bool :=
  s.one || s.two || s.three

/-- The AutomationHat outputs: the three indicator lights and the three
relays. `comms` carries a brightness in [0,1] because the code calls
`light.comms.write(brightness)`; `on` is brightness 1 and `off` is 0. -/
structure Hat where
  power : Bool
  comms : ℚ
  warn : Bool
  r1 : Bool
  r2 : Bool
  r3 : Bool
deriving DecidableEq, Repr

/-- The hat with every light and relay off. -/
def hatAllOff : Hat :=
  ⟨false, 0, false, false, false, false⟩

/-- All three relays are off. -/
def relaysOff (h : Hat) : Prop :=
  h.r1 = false ∧ h.r2 = false ∧ h.r3 = false

instance (h : Hat) : Decidable (relaysOff h) := by
  unfold relaysOff; infer_instance

/-- The four states of the machine, the keys of the `states` dict. -/
inductive StateKind
  | off
  | turningOn
  | armed
  | on
deriving DecidableEq, Repr

/-- `POWERON_HOLD_TIME = 60` seconds. -/
def POWERON_HOLD_TIME : ℚ := 60

/-- `ARMED_HOLD_TIME = 30` seconds. -/
def ARMED_HOLD_TIME : ℚ := 30

/-- The constructor-time side effects of each state class (`__init__`):
the writes it performs on the lights and relays. `StateOff` turns all three
lights and all three relays off; the other three states set only the lights. -/
def entry : StateKind → Hat → Hat
  | .off, _ => hatAllOff
  | .turningOn, h => { h with power := true, comms := 1, warn := false }
  | .armed, h => { h with power := true, comms := 0, warn := true }
  | .on, h => { h with power := true, comms := 0, warn := false }

/-- The comms-LED dimming curve of `StateTurningOn.input`:
`max(.01, 1 - elapsed / POWERON_HOLD_TIME)`. -/
def commsBrightness (elapsed : ℚ) : ℚ :=
  max (1 / 100) (1 - elapsed / POWERON_HOLD_TIME)

/-- The `input` method of each state class: given the sample, the elapsed
time since the state's `started` timestamp, and the current hat outputs,
return the transition (`none` for the empty string) and the updated outputs.

* `StateOff.input`: any input high returns `'turning_on'`, else stays;
  no output writes.
* `StateTurningOn.input`: all inputs low returns `'armed'`; else if
  `elapsed >= POWERON_HOLD_TIME` returns `'armed'`; else writes the dimmed
  comms brightness and stays.
* `StateArmed.input`: any input high returns `'on'`; else if
  `elapsed >= ARMED_HOLD_TIME` returns `'off'`; else stays; no output writes.
* `StateOn.input`: all inputs low returns `'off'`; else sets each relay to
  its input channel and stays. -/
def evaluate : StateKind → Sample → ℚ → Hat → Option StateKind × Hat
  | .off, s, _, h =>
      (if anyHigh s then some .turningOn else none, h)
  | .turningOn, s, e, h =>
      if !anyHigh s then (some .armed, h)
      else if POWERON_HOLD_TIME ≤ e then (some .armed, h)
      else (none, { h with comms := commsBrightness e })
  | .armed, s, e, h =>
      if anyHigh s then (some .on, h)
      else if ARMED_HOLD_TIME ≤ e then (some .off, h)
      else (none, h)
  | .on, s, _, h =>
      if !anyHigh s then (some .off, h)
      else (none, { h with r1 := s.one, r2 := s.two, r3 := s.three })

/-- The whole machine at one instant: the current state's kind, its
`started` timestamp (set by `State.__init__`), and the hardware outputs. -/
structure Machine where
  kind : StateKind
  started : ℚ
  hat : Hat
deriving DecidableEq, Repr

/-- One iteration of the main loop at wall-clock time `now`: call the current
state's `input` with the fresh sample and `set_state` the result. An empty
result leaves the current state instance alone; a state name constructs a
fresh instance, running its entry side effects and resetting `started`. -/
def step (m : Machine) (s : Sample) (now : ℚ) : Machine :=
  match evaluate m.kind s (now - m.started) m.hat with
  | (none, h) => { m with hat := h }
  | (some k, h) => { kind := k, started := now, hat := entry k h }

/-- Run the main loop over a list of (sample, wall-clock time) ticks. -/
def run (m : Machine) : List (Sample × ℚ) → Machine
  | [] => m
  | (s, t) :: rest => run (step m s t) rest

/-- The startup logic of `trigger()`: sample the inputs once; if any channel
is high, `set_state('on')`, else `set_state('off')`. `h` is whatever output
state the hardware is in before the program starts. -/
def initMachine (s : Sample) (now : ℚ) (h : Hat) : Machine :=
  if anyHigh s then ⟨.on, now, entry .on h⟩
  else ⟨.off, now, entry .off h⟩

/-- C3: in the TURNING_ON state, `evaluate` returns a transition to ARMED iff
either every channel is low or the elapsed time is at least
`POWERON_HOLD_TIME` (60 s) — regardless of the input in the timeout case —
and otherwise returns no transition. -/
theorem turningOn_to_armed_iff (s : Sample) (e : ℚ) (h : Hat) :
    ((evaluate .turningOn s e h).1 = some .armed ↔
      (anyHigh s = false ∨ POWERON_HOLD_TIME ≤ e)) ∧
    (¬(anyHigh s = false ∨ POWERON_HOLD_TIME ≤ e) →
      (evaluate .turningOn s e h).1 = none) := by
  cases hs : anyHigh s <;> by_cases he : POWERON_HOLD_TIME ≤ e <;>
    simp [evaluate, hs, he]

/-- Witness for C3: concrete instances of the TURNING_ON transition rule. -/
theorem turningOn_to_armed_iff_witness :
    (evaluate .turningOn ⟨true, false, false⟩ 5 hatAllOff).1 = none ∧
    (evaluate .turningOn ⟨true, false, false⟩ 60 hatAllOff).1 = some .armed := by
  refine ⟨(turningOn_to_armed_iff ⟨true, false, false⟩ 5 hatAllOff).2 ?_,
    (turningOn_to_armed_iff ⟨true, false, false⟩ 60 hatAllOff).1.mpr ?_⟩
  · decide
  · decide

/-- C4: in the ON state, `evaluate` returns a transition to OFF iff all three
channels are simultaneously low; otherwise it returns no transition and sets
each relay to its input channel (pass-through mirroring). -/
theorem on_passthrough_and_off_iff (s : Sample) (e : ℚ) (h : Hat) :
    ((evaluate .on s e h).1 = some .off ↔ anyHigh s = false) ∧
    (anyHigh s = true →
      (evaluate .on s e h).1 = none ∧
      (evaluate .on s e h).2.r1 = s.one ∧
      (evaluate .on s e h).2.r2 = s.two ∧
      (evaluate .on s e h).2.r3 = s.three) := by
  cases hs : anyHigh s <;> simp [evaluate, hs]

/-- Witness for C4: in ON with sample (0,1,0) there is no transition and the
relays mirror the inputs. -/
theorem on_passthrough_and_off_iff_witness :
    (evaluate .on ⟨false, true, false⟩ 1 hatAllOff).1 = none ∧
    (evaluate .on ⟨false, true, false⟩ 1 hatAllOff).2.r2 = true := by
  have h := (on_passthrough_and_off_iff ⟨false, true, false⟩ 1 hatAllOff).2
    (by decide)
  exact ⟨h.1, h.2.2.1⟩

/-- C7: in the OFF state, `evaluate` returns a transition to TURNING_ON iff
at least one channel is high, returns no transition otherwise, and never
writes an output, so the all-off outputs established by `StateOff.__init__`
stay off. -/
theorem off_to_turningOn_iff (s : Sample) (e : ℚ) (h : Hat) :
    ((evaluate .off s e h).1 = some .turningOn ↔ anyHigh s = true) ∧
    (anyHigh s = false → (evaluate .off s e h).1 = none) ∧
    (evaluate .off s e h).2 = h ∧
    (evaluate .off s e (entry .off h)).2 = hatAllOff := by
  cases hs : anyHigh s <;> simp [evaluate, entry, hs]

/-- Witness for C7: concrete instances of the OFF transition rule. -/
theorem off_to_turningOn_iff_witness :
    (evaluate .off ⟨false, false, false⟩ 2 hatAllOff).1 = none ∧
    (evaluate .off ⟨true, false, false⟩ 2 hatAllOff).1 = some .turningOn := by
  refine ⟨(off_to_turningOn_iff ⟨false, false, false⟩ 2 hatAllOff).2.1 ?_,
    (off_to_turningOn_iff ⟨true, false, false⟩ 2 hatAllOff).1.mpr ?_⟩
  · decide
  · decide

/-- C8: at startup the inputs are sampled once and `trigger` starts the
machine directly in ON iff some channel of that first sample is high, and
in OFF otherwise. -/
theorem initMachine_kind (s : Sample) (t : ℚ) (h : Hat) :
    ((initMachine s t h).kind = .on ↔ anyHigh s = true) ∧
    ((initMachine s t h).kind = .off ↔ anyHigh s = false) := by
  cases hs : anyHigh s <;> simp [initMachine, hs]

/-- Witness for C8: with first sample (0,0,1) the machine starts in ON; with
first sample (0,0,0) it starts in OFF. -/
theorem initMachine_kind_witness :
    (initMachine ⟨false, false, true⟩ 0 hatAllOff).kind = .on ∧
    (initMachine ⟨false, false, false⟩ 0 hatAllOff).kind = .off := by
  refine ⟨(initMachine_kind ⟨false, false, true⟩ 0 hatAllOff).1.mpr ?_,
    (initMachine_kind ⟨false, false, false⟩ 0 hatAllOff).2.mpr ?_⟩
  · decide
  · decide

/-- Counterexample to C2: `StateArmed.input` checks `1 in input` first, so
with a high channel at elapsed exactly `ARMED_HOLD_TIME` (not "before 30
seconds") it still transitions to ON, and not to OFF as the claim's
biconditional dictates. -/
theorem armed_on_at_timeout_cex :
    (evaluate .armed ⟨true, false, false⟩ 30 hatAllOff).1 = some .on ∧
    ¬((30 : ℚ) < ARMED_HOLD_TIME) ∧
    (evaluate .armed ⟨true, false, false⟩ 30 hatAllOff).1 ≠ some .off := by
  refine ⟨by decide, by decide, by decide⟩

/-- C2 amended: in the ARMED state, `evaluate` returns a transition to ON iff
some channel is high, regardless of elapsed time; with all channels low it
returns a transition to OFF iff elapsed has reached `ARMED_HOLD_TIME` (30 s);
with all channels low and elapsed below 30 s it returns no transition, and it
never writes an output. -/
theorem armed_eval_amended (s : Sample) (e : ℚ) (h : Hat) :
    ((evaluate .armed s e h).1 = some .on ↔ anyHigh s = true) ∧
    (anyHigh s = false →
      ((evaluate .armed s e h).1 = some .off ↔ ARMED_HOLD_TIME ≤ e)) ∧
    (anyHigh s = false → e < ARMED_HOLD_TIME →
      (evaluate .armed s e h).1 = none) ∧
    (evaluate .armed s e h).2 = h := by
  cases hs : anyHigh s <;> by_cases he : ARMED_HOLD_TIME ≤ e <;>
    simp [evaluate, hs, he]

/-- Witness for the amended C2: concrete instances of the ARMED rule. -/
theorem armed_eval_amended_witness :
    (evaluate .armed ⟨false, false, false⟩ 5 hatAllOff).1 = none ∧
    (evaluate .armed ⟨true, false, false⟩ 3 hatAllOff).1 = some .on := by
  refine ⟨(armed_eval_amended ⟨false, false, false⟩ 5 hatAllOff).2.2.1 ?_ ?_,
    (armed_eval_amended ⟨true, false, false⟩ 3 hatAllOff).1.mpr ?_⟩
  · decide
  · decide
  · decide

/-- C6: the comms brightness written by `evaluate` while the machine stays in
TURNING_ON is `commsBrightness elapsed`, which is non-increasing in the
elapsed time, bounded below by 0.01, and equal to 1.0 at elapsed 0. -/
theorem comms_dim_spec :
    (∀ e1 e2 : ℚ, e1 ≤ e2 → commsBrightness e2 ≤ commsBrightness e1) ∧
    (∀ e : ℚ, 1 / 100 ≤ commsBrightness e) ∧
    commsBrightness 0 = 1 ∧
    (∀ (s : Sample) (e : ℚ) (h : Hat),
      (evaluate .turningOn s e h).1 = none →
      (evaluate .turningOn s e h).2.comms = commsBrightness e) := by
  refine ⟨?_, ?_, ?_, ?_⟩
  · intro e1 e2 h12
    unfold commsBrightness POWERON_HOLD_TIME
    gcongr
  · intro e
    exact le_max_left _ _
  · norm_num [commsBrightness, POWERON_HOLD_TIME]
  · intro s e h hnone
    by_cases hs : anyHigh s
    · by_cases he : POWERON_HOLD_TIME ≤ e
      · simp [evaluate, hs, he] at hnone
      · simp [evaluate, hs, he]
    · simp [evaluate, hs] at hnone

/-- Witness for C6: the brightness curve at elapsed 10 and 30 seconds, and
the comms write of a concrete no-transition tick. -/
theorem comms_dim_spec_witness :
    commsBrightness 30 ≤ commsBrightness 10 ∧
    1 / 100 ≤ commsBrightness 200 ∧
    (evaluate .turningOn ⟨true, false, false⟩ 20 hatAllOff).2.comms =
      commsBrightness 20 := by
  refine ⟨comms_dim_spec.1 10 30 ?_, comms_dim_spec.2.1 200,
    comms_dim_spec.2.2.2 ⟨true, false, false⟩ 20 hatAllOff ?_⟩
  · decide
  · decide

/-- Every entry side effect leaves off relays off: `StateOff.__init__` turns
them off and no other constructor touches them. -/
lemma relaysOff_entry (k : StateKind) (h : Hat) (hr : relaysOff h) :
    relaysOff (entry k h) := by
  cases k <;> simp_all [entry, relaysOff, hatAllOff]

/-- Outside the ON state, `input` writes no relay. -/
lemma relaysOff_evaluate (k : StateKind) (s : Sample) (e : ℚ) (h : Hat)
    (hk : k ≠ .on) (hr : relaysOff h) : relaysOff (evaluate k s e h).2 := by
  cases k
  · simpa [evaluate] using hr
  · simp only [evaluate]
    split_ifs <;> simp_all [relaysOff]
  · simp only [evaluate]
    split_ifs <;> simp_all [relaysOff]
  · exact absurd rfl hk

/-- One loop iteration preserves the invariant "outside ON, all relays are
off": entry side effects never turn a relay on, and only `StateOn.input`
writes a relay. -/
lemma relaysOff_step (m : Machine) (s : Sample) (now : ℚ)
    (hm : m.kind ≠ .on → relaysOff m.hat) :
    (step m s now).kind ≠ .on → relaysOff (step m s now).hat := by
  rcases m with ⟨k, t, h⟩
  by_cases hk : k = .on
  · subst hk
    cases hs : anyHigh s
    · intro _
      simp [step, evaluate, hs, entry, relaysOff, hatAllOff]
    · intro hne
      exact absurd (by simp [step, evaluate, hs]) hne
  · intro _
    have hr : relaysOff h := hm (by simpa using hk)
    have h2 := relaysOff_evaluate k s (now - t) h hk hr
    unfold step
    rcases hv : evaluate k s (now - t) h with ⟨tr, h3⟩
    rw [hv] at h2
    cases tr
    · simpa using h2
    · simpa using relaysOff_entry _ _ h2

/-- The invariant "outside ON, all relays are off" holds along every run. -/
lemma relaysOff_run (tr : List (Sample × ℚ)) (m : Machine)
    (hm : m.kind ≠ .on → relaysOff m.hat) :
    (run m tr).kind ≠ .on → relaysOff (run m tr).hat := by
  induction tr generalizing m with
  | nil => exact hm
  | cons p rest ih => exact ih (step m p.1 p.2) (relaysOff_step m p.1 p.2 hm)

/-- C1: along every run that begins in OFF (whose entry turns all three
relays off), whenever the machine is in OFF, TURNING_ON or ARMED every relay
is off; a relay can be on only once the machine has reached ON, so only an
evaluate step taken in ON can have switched it on. -/
theorem relays_off_until_on (h0 : Hat) (t0 : ℚ) (tr : List (Sample × ℚ)) :
    (run ⟨.off, t0, entry .off h0⟩ tr).kind ≠ .on →
    relaysOff (run ⟨.off, t0, entry .off h0⟩ tr).hat :=
  relaysOff_run tr _ (fun _ => by simp [entry, hatAllOff, relaysOff])

/-- Witness for C1: after the run OFF → TURNING_ON, the run is not in ON and
all relays are off. -/
theorem relays_off_until_on_witness :
    relaysOff (run ⟨.off, 0, entry .off hatAllOff⟩
      [(⟨true, false, false⟩, 1)]).hat :=
  relays_off_until_on hatAllOff 0 [(⟨true, false, false⟩, 1)] (by decide)

/-- Counterexample to C5: from ARMED (entered with all outputs at their
ARMED-entry values) on sample (0,1,0) within 30 s, the machine does
transition to ON on that tick, but relay 2 is still off on that tick: the
relays are only written by a later evaluate step taken in ON. -/
theorem armed_to_on_tick_relay2_off_cex :
    (step ⟨.armed, 0, entry .armed hatAllOff⟩ ⟨false, true, false⟩ 5).kind =
      .on ∧
    (step ⟨.armed, 0, entry .armed hatAllOff⟩ ⟨false, true, false⟩ 5).hat.r2 =
      false := by
  refine ⟨by decide, by decide⟩

/-- C5 amended: from ARMED with all relays off, when the sample becomes
(0,1,0) within 30 s of entering ARMED, the machine transitions to ON on that
tick with all relays still off, and on the next evaluate step in ON with the
same sample relay 2 turns on while relays 1 and 3 stay off. -/
theorem armed_to_on_scenario (m : Machine) (now now2 : ℚ)
    (hk : m.kind = .armed) (hr : relaysOff m.hat)
    (hlt : now - m.started < ARMED_HOLD_TIME) :
    (step m ⟨false, true, false⟩ now).kind = .on ∧
    relaysOff (step m ⟨false, true, false⟩ now).hat ∧
    (step (step m ⟨false, true, false⟩ now) ⟨false, true, false⟩ now2).kind =
      .on ∧
    (step (step m ⟨false, true, false⟩ now) ⟨false, true, false⟩ now2).hat.r1 =
      false ∧
    (step (step m ⟨false, true, false⟩ now) ⟨false, true, false⟩ now2).hat.r2 =
      true ∧
    (step (step m ⟨false, true, false⟩ now) ⟨false, true, false⟩ now2).hat.r3 =
      false := by
  rcases m with ⟨k, t, h⟩
  cases hk
  simp_all [step, evaluate, entry, relaysOff, anyHigh]

/-- Witness for the amended C5: the concrete ARMED machine of the N=3
scenario, sampled at 5 s and again at 26/5 s. -/
theorem armed_to_on_scenario_witness :
    (step (step ⟨.armed, 0, entry .armed hatAllOff⟩ ⟨false, true, false⟩ 5)
      ⟨false, true, false⟩ (26 / 5)).hat.r2 = true :=
  (armed_to_on_scenario ⟨.armed, 0, entry .armed hatAllOff⟩ 5 (26 / 5)
    (by decide) (by decide)
    (by rw [show ((⟨.armed, 0, entry .armed hatAllOff⟩ : Machine)).started = 0
          from rfl, sub_zero]
        decide)).2.2.2.2.1

/-- Counterexample to C9: in TURNING_ON with input high and elapsed 20 s
(below both thresholds), `evaluate` returns no transition yet rewrites the
comms indicator that entry had set to brightness 1, so not every indicator
set at entry is untouched. -/
theorem no_transition_comms_cex :
    (evaluate .turningOn ⟨true, false, false⟩ 20
      (entry .turningOn hatAllOff)).1 = none ∧
    (evaluate .turningOn ⟨true, false, false⟩ 20
        (entry .turningOn hatAllOff)).2.comms ≠
      (entry .turningOn hatAllOff).comms := by
  constructor
  · decide
  · norm_num [evaluate, anyHigh, entry, hatAllOff, commsBrightness,
      POWERON_HOLD_TIME]

/-- C9 amended: whenever `evaluate` returns no transition, `set_state` leaves
the state instance untouched — same kind, same entry timestamp — applying it
again with the same sample and time changes nothing further, and no entry
side effect re-runs: the power and warn indicators are untouched, the comms
indicator is untouched except in TURNING_ON (where the dim curve rewrites
it), and the relays are untouched except in ON (pass-through). -/
theorem no_transition_frame (m : Machine) (s : Sample) (now : ℚ)
    (hnone : (evaluate m.kind s (now - m.started) m.hat).1 = none) :
    (step m s now).kind = m.kind ∧
    (step m s now).started = m.started ∧
    (step m s now).hat.power = m.hat.power ∧
    (step m s now).hat.warn = m.hat.warn ∧
    (m.kind ≠ .turningOn → (step m s now).hat.comms = m.hat.comms) ∧
    (m.kind ≠ .on → ((step m s now).hat.r1 = m.hat.r1 ∧
      (step m s now).hat.r2 = m.hat.r2 ∧
      (step m s now).hat.r3 = m.hat.r3)) ∧
    step (step m s now) s now = step m s now := by
  rcases m with ⟨k, t, h⟩
  cases k
  · cases hs : anyHigh s
    · simp [step, evaluate, hs]
    · simp [evaluate, hs] at hnone
  · cases hs : anyHigh s
    · simp [evaluate, hs] at hnone
    · by_cases he : POWERON_HOLD_TIME ≤ now - t
      · simp [evaluate, hs, he] at hnone
      · simp [step, evaluate, hs, he]
  · cases hs : anyHigh s
    · by_cases he : ARMED_HOLD_TIME ≤ now - t
      · simp [evaluate, hs, he] at hnone
      · simp [step, evaluate, hs, he]
    · simp [evaluate, hs] at hnone
  · cases hs : anyHigh s
    · simp [evaluate, hs] at hnone
    · simp [step, evaluate, hs]

/-- Witness for the amended C9: a no-transition tick in OFF keeps the entry
timestamp. -/
theorem no_transition_frame_witness :
    (step ⟨.off, 0, hatAllOff⟩ ⟨false, false, false⟩ 1).started = (0 : ℚ) :=
  (no_transition_frame ⟨.off, 0, hatAllOff⟩ ⟨false, false, false⟩ 1
    (by decide)).2.1

/-- No `input` method writes the warn light. -/
lemma evaluate_warn (k : StateKind) (s : Sample) (e : ℚ) (h : Hat) :
    (evaluate k s e h).2.warn = h.warn := by
  cases k
  · simp [evaluate]
  · simp only [evaluate]
    split_ifs <;> simp
  · simp only [evaluate]
    split_ifs <;> simp
  · simp only [evaluate]
    split_ifs <;> simp

/-- The entry side effects turn the warn light on exactly for ARMED. -/
lemma entry_warn (k : StateKind) (h : Hat) :
    ((entry k h).warn = true ↔ k = .armed) := by
  cases k <;> simp [entry, hatAllOff]

/-- C10: the warn indicator is on exactly in the ARMED state: entry to ARMED
turns it on, entry to any other state turns it off, no `input` method writes
it, the equivalence holds at startup, and every loop iteration preserves
it. -/
theorem warn_iff_armed :
    (∀ h : Hat, (entry .armed h).warn = true) ∧
    (∀ (k : StateKind) (h : Hat), k ≠ .armed → (entry k h).warn = false) ∧
    (∀ (k : StateKind) (s : Sample) (e : ℚ) (h : Hat),
      (evaluate k s e h).2.warn = h.warn) ∧
    (∀ (s : Sample) (t : ℚ) (h : Hat),
      ((initMachine s t h).hat.warn = true ↔
        (initMachine s t h).kind = .armed)) ∧
    (∀ (m : Machine) (s : Sample) (now : ℚ),
      (m.hat.warn = true ↔ m.kind = .armed) →
      ((step m s now).hat.warn = true ↔ (step m s now).kind = .armed)) := by
  refine ⟨?_, ?_, ?_, ?_, ?_⟩
  · intro h
    simp [entry]
  · intro k h hk
    cases k <;> simp_all [entry, hatAllOff]
  · intro k s e h
    exact evaluate_warn k s e h
  · intro s t h
    cases hs : anyHigh s <;> simp [initMachine, entry, hatAllOff, hs]
  · intro m s now hw
    unfold step
    rcases hv : evaluate m.kind s (now - m.started) m.hat with ⟨tr, h2⟩
    have h2w : h2.warn = m.hat.warn := by
      have hew := evaluate_warn m.kind s (now - m.started) m.hat
      rw [hv] at hew
      exact hew
    cases tr
    · simpa [h2w] using hw
    · simpa using entry_warn _ h2

/-- Witness for C10: one preserved step from OFF at startup outputs. -/
theorem warn_iff_armed_witness :
    ((step ⟨.off, 0, hatAllOff⟩ ⟨true, false, false⟩ 1).hat.warn = true ↔
      (step ⟨.off, 0, hatAllOff⟩ ⟨true, false, false⟩ 1).kind = .armed) :=
  warn_iff_armed.2.2.2.2 ⟨.off, 0, hatAllOff⟩ ⟨true, false, false⟩ 1
    (by decide)

end Triggerpi
